import Mathlib

/-!
Shallow embedding of the matterbridge-vallox device-state synchronization
core: the `ValloxDevice` class (status translation, command translation,
polling) and the `TemplatePlatform` pure helpers (CO2 classification,
speed-to-mode bucketing, attribute updates).  Register values are modelled
as `Int` (JS numbers at integral values), absent object properties as
`none`, and the external vallox-api service as an explicit state record.
-/

set_option autoImplicit false

namespace ValloxBridge

/-- The Matter `FanControl.FanMode` enumeration used by the platform. -/
inductive FanMode where
  | Off
  | Low
  | Medium
  | High
  | On
  | Auto
  | Smart
  deriving DecidableEq, Repr

/-- The Matter `AirQuality.AirQualityEnum` enumeration. -/
inductive AirQualityEnum where
  | Unknown
  | Good
  | Fair
  | Moderate
  | Poor
  | VeryPoor
  | ExtremelyPoor
  deriving DecidableEq, Repr

/-- The CO2-to-air-quality conditional chain of `TemplatePlatform.updateValues`
(module.ts): `data.carbonDioxideConcentration && data.carbonDioxideConcentration > 0`
guards the banding, so an absent or zero (falsy) or non-positive reading yields
`Unknown`; otherwise the `< 800 / < 1200 / < 1800 / < 2100` chain applies. -/
def classify (co2 : Option Int) : AirQualityEnum :=
  match co2 with
  | none => AirQualityEnum.Unknown
  | some n =>
      if n ≠ 0 ∧ n > 0 then
        if n < 800 then AirQualityEnum.Good
        else if n < 1200 then AirQualityEnum.Moderate
        else if n < 1800 then AirQualityEnum.Poor
        else if n < 2100 then AirQualityEnum.VeryPoor
        else AirQualityEnum.ExtremelyPoor
      else AirQualityEnum.Unknown

/-- Result shape of `ValloxDevice.getModeSpeeds`: the three per-mode speed
setting registers, each absent when the unit omits the key. -/
structure ModeSpeeds where
  HOME : Option Int
  AWAY : Option Int
  BOOST : Option Int
  deriving DecidableEq, Repr

/-- JS logical not applied to a number: true exactly on the falsy value 0. -/
def jsNotNum (n : Int) : Bool := n == 0

/-- JS numeric coercion of a boolean, as performed by a `<=` comparison whose
left operand is a boolean. -/
def jsNumOfBool (b : Bool) : Int := if b then 1 else 0

/-- `TemplatePlatform.valloxSpeedToMatterMode` (module.ts).  `if (!speed)`
returns `Off` for an absent or zero speed.  Otherwise the thresholds are read
with defaults 20/40/60 and the chain
`!speed <= matterSpeeds.Low ? Low : speed <= matterSpeeds.Medium ? Medium : High`
is evaluated with JS semantics: the left operand of the first comparison is the
boolean `!speed` coerced to a number (the `High` threshold is never compared). -/
def valloxSpeedToMatterMode (speed : Option Int) (valloxSpeeds : ModeSpeeds) : FanMode :=
  match speed with
  | none => FanMode.Off
  | some s =>
      if s == 0 then FanMode.Off
      else
        let low := valloxSpeeds.AWAY.getD 20
        let medium := valloxSpeeds.HOME.getD 40
        if jsNumOfBool (jsNotNum s) ≤ low then FanMode.Low
        else if s ≤ medium then FanMode.Medium
        else FanMode.High

/-- `TemplatePlatform.matterModeToValloxMode` (module.ts): Matter fan mode to
Vallox profile name, defaulting to HOME. -/
def matterModeToValloxMode (mode : FanMode) : String :=
  match mode with
  | FanMode.Off => "OFF"
  | FanMode.Low => "AWAY"
  | FanMode.Medium => "HOME"
  | FanMode.High => "BOOST"
  | _ => "HOME"

/-- The registers the physical unit currently reports: a partial map from
metric key to value; a key the unit does not report maps to `none`. -/
def Registers : Type := String → Option Int

/-- The external vallox-api client state seen by `ValloxDevice`: the register
file answering `fetchMetrics`, the active profile returned by `getProfile`,
and the static `PROFILES` table (profile name to raw enum value) kept as the
entry list of the JS object (names unique in an actual object). -/
structure ValloxService where
  registers : Registers
  profile : Int
  PROFILES : List (String × Int)

/-- `fetchMetrics(keys)`: the response holds a value only at requested keys the
unit reports; a partial response (missing requested keys) is still a map. -/
def fetchMetrics (svc : ValloxService) (keys : List String) : Registers :=
  fun k => if k ∈ keys then svc.registers k else none

/-- The profiles inversion in `ValloxDevice.getStatusInfo`: `Object.assign`
folds `{[rawValue]: name}` objects left to right, a later entry overriding an
earlier one with the same raw value, so reading the inverted object at `v`
yields the name of the last `PROFILES` entry whose raw value is `v`. -/
def invertedProfileLookup (tbl : List (String × Int)) (v : Int) : Option String :=
  (tbl.reverse.find? (fun e => e.2 == v)).map (fun e => e.1)

/-- JS object property read `PROFILES[mode]` (unique keys). -/
def profileLookup (tbl : List (String × Int)) (m : String) : Option Int :=
  (tbl.find? (fun e => e.1 == m)).map (fun e => e.2)

/-- The `ValloxStatus` record of device.ts. -/
structure ValloxStatus where
  power : Bool
  fanMode : String
  fanSpeed : Option Int
  temperature : Option Int
  relativeHumidity : Option Int
  carbonDioxideConcentration : Option Int
  deriving DecidableEq, Repr

/-- `ValloxDevice.getStatusInfo`: fetches the five status registers and the
active profile, then assembles the snapshot.  `power` is the strict equality
`metrics['A_CYC_MODE'] === 0` (false when the key is absent), `fanMode` is the
inverted-profiles read with fallback `'OFF'`, and the four sensor fields are
direct reads of the fetched map. -/
def getStatusInfo (svc : ValloxService) : ValloxStatus :=
  let metrics := fetchMetrics svc
    ["A_CYC_MODE", "A_CYC_RH_VALUE", "A_CYC_FAN_SPEED", "A_CYC_CO2_SENSOR_0", "A_CYC_TEMP_SUPPLY_AIR"]
  { power := metrics "A_CYC_MODE" == some 0
    fanMode := (invertedProfileLookup svc.PROFILES svc.profile).getD "OFF"
    fanSpeed := metrics "A_CYC_FAN_SPEED"
    temperature := metrics "A_CYC_TEMP_SUPPLY_AIR"
    relativeHumidity := metrics "A_CYC_RH_VALUE"
    carbonDioxideConcentration := metrics "A_CYC_CO2_SENSOR_0" }

/-- `ValloxDevice.getModeSpeeds`: fetches the three per-mode speed settings. -/
def getModeSpeeds (svc : ValloxService) : ModeSpeeds :=
  let metrics := fetchMetrics svc
    ["A_CYC_HOME_SPEED_SETTING", "A_CYC_AWAY_SPEED_SETTING", "A_CYC_BOOST_SPEED_SETTING"]
  { HOME := metrics "A_CYC_HOME_SPEED_SETTING"
    AWAY := metrics "A_CYC_AWAY_SPEED_SETTING"
    BOOST := metrics "A_CYC_BOOST_SPEED_SETTING" }

/-- The argument `ValloxDevice.changeFanMode` passes to `setProfile`: the raw
enum value found in the `PROFILES` table, or — through the `?? 'HOME'`
fallback — the plain name string `'HOME'`. -/
inductive ProfileArg where
  | rawValue : Int → ProfileArg
  | nameString : String → ProfileArg
  deriving DecidableEq, Repr

/-- One observable interaction of `ValloxDevice` with the outside world, in
program order: a `setValues` register write, a `setProfile` write, the
metrics+profile fetch performed by `getStatusInfo`, or an invocation of the
subscriber callback with a status snapshot. -/
inductive DeviceEvent where
  | setValues : List (String × Int) → DeviceEvent
  | setProfile : ProfileArg → DeviceEvent
  | fetchStatus : DeviceEvent
  | callback : ValloxStatus → DeviceEvent
  deriving DecidableEq, Repr

/-- Whether an event is a raw device write. -/
def DeviceEvent.isWrite : DeviceEvent → Bool
  | DeviceEvent.setValues _ => true
  | DeviceEvent.setProfile _ => true
  | _ => false

/-- Whether an event is a subscriber-callback invocation. -/
def DeviceEvent.isCallback : DeviceEvent → Bool
  | DeviceEvent.callback _ => true
  | _ => false

/-- The raw-write subsequence of a trace. -/
def writesOf (t : List DeviceEvent) : List DeviceEvent :=
  t.filter DeviceEvent.isWrite

/-- `ValloxDevice.changeFanMode(mode)` as its event trace: for `'OFF'` a single
`setValues({A_CYC_MODE: 5})`; otherwise `setValues({A_CYC_MODE: 0})` followed
by `setProfile(PROFILES[mode] ?? 'HOME')`; in every case the method ends with
`updateCallback(await getStatusInfo())`. -/
def changeFanMode (svc : ValloxService) (mode : String) : List DeviceEvent :=
  (if mode == "OFF" then
    [DeviceEvent.setValues [("A_CYC_MODE", 5)]]
  else
    [DeviceEvent.setValues [("A_CYC_MODE", 0)],
     DeviceEvent.setProfile
       ((profileLookup svc.PROFILES mode).elim (ProfileArg.nameString "HOME") ProfileArg.rawValue)])
  ++ [DeviceEvent.fetchStatus, DeviceEvent.callback (getStatusInfo svc)]

/-- `ValloxDevice.changeFanSpeed(speed)` as its event trace: for 0 it performs
`changeFanMode('OFF')`; otherwise it writes the speed to the two fireplace
override registers and performs `changeFanMode('FIREPLACE')`; either way it
then runs its own `updateCallback(await getStatusInfo())`. -/
def changeFanSpeed (svc : ValloxService) (speed : Int) : List DeviceEvent :=
  (if speed == 0 then
    changeFanMode svc "OFF"
  else
    DeviceEvent.setValues [("A_CYC_FIREPLACE_EXTR_FAN", speed), ("A_CYC_FIREPLACE_SUPP_FAN", speed)]
      :: changeFanMode svc "FIREPLACE")
  ++ [DeviceEvent.fetchStatus, DeviceEvent.callback (getStatusInfo svc)]

/-- `ValloxDevice` polling state together with the host runtime's timer table:
`activeTimers` holds the ids of the armed `setInterval` timers (a real handle
object is always truthy), `nextId` the next fresh id, `timer` the device's
stored handle field, `undefined` when cleared. -/
structure PollState where
  nextId : Nat
  activeTimers : List Nat
  timer : Option Nat
  deriving DecidableEq, Repr

/-- The state of a freshly constructed `ValloxDevice`: no timer armed. -/
def PollState.initial : PollState :=
  { nextId := 0, activeTimers := [], timer := none }

/-- `ValloxDevice.startPolling`: one immediate poll-and-deliver, then
`setInterval` arms a fresh recurring timer whose handle overwrites
`this.timer`.  The source has no already-running guard. -/
def startPolling (svc : ValloxService) (s : PollState) : PollState × List DeviceEvent :=
  ({ nextId := s.nextId + 1
     activeTimers := s.activeTimers ++ [s.nextId]
     timer := some s.nextId },
   [DeviceEvent.fetchStatus, DeviceEvent.callback (getStatusInfo svc)])

/-- `ValloxDevice.stopPolling`: if `this.timer` is set (handles are truthy),
`clearInterval` disarms that timer and the field is cleared; otherwise the
method does nothing (and cannot throw). -/
def stopPolling (s : PollState) : PollState :=
  match s.timer with
  | none => s
  | some t =>
      { nextId := s.nextId, activeTimers := s.activeTimers.erase t, timer := none }

/-- The fan endpoint attributes written by `TemplatePlatform.updateValues`. -/
structure FanAttributes where
  fanMode : FanMode
  percentSetting : Int
  deriving DecidableEq, Repr

/-- The air-quality endpoint attributes written by
`TemplatePlatform.updateValues`; `none` models a `null` attribute write. -/
structure AqsAttributes where
  airQuality : Option AirQualityEnum
  temperatureMeasuredValue : Option Int
  humidityMeasuredValue : Option Int
  co2MeasuredValue : Option Int
  deriving DecidableEq, Repr

/-- Everything `TemplatePlatform.updateValues` writes to the two endpoints. -/
structure UpdateOutcome where
  fan : FanAttributes
  aqs : AqsAttributes
  reachable : Bool
  deriving DecidableEq, Repr

/-- `TemplatePlatform.updateValues(data)` (module.ts) as the attribute values
it writes.  When `data.power` holds, the fan mode comes from
`valloxSpeedToMatterMode` (which re-fetches the mode speeds from the service,
hence the service parameter), `percentSetting` is `data.fanSpeed ?? 50`, and
the sensor attributes are written from the snapshot; otherwise the fan is
forced to `Off` at 0 percent and every sensor attribute is written `null`.
Both endpoints' `reachable` flags are set to `data.power`. -/
def updateValues (svc : ValloxService) (data : ValloxStatus) : UpdateOutcome :=
  if data.power then
    { fan :=
        { fanMode := valloxSpeedToMatterMode data.fanSpeed (getModeSpeeds svc)
          percentSetting := data.fanSpeed.getD 50 }
      aqs :=
        { airQuality := some (classify data.carbonDioxideConcentration)
          temperatureMeasuredValue := some (data.temperature.getD 0 * 100)
          humidityMeasuredValue := some (data.relativeHumidity.getD 0 * 100)
          co2MeasuredValue := some (data.carbonDioxideConcentration.getD 0) }
      reachable := data.power }
  else
    { fan := { fanMode := FanMode.Off, percentSetting := 0 }
      aqs :=
        { airQuality := none
          temperatureMeasuredValue := none
          humidityMeasuredValue := none
          co2MeasuredValue := none }
      reachable := data.power }

/-- A concrete `PROFILES` table for concrete evaluations: profile names to raw
enum values, names unique. -/
def sampleProfiles : List (String × Int) :=
  [("HOME", 2), ("AWAY", 1), ("BOOST", 3), ("FIREPLACE", 4)]

/-- A concrete running service: mode register 0 (running), full register file,
active profile HOME. -/
def sampleService : ValloxService :=
  { registers := fun k =>
      if k = "A_CYC_MODE" then some 0
      else if k = "A_CYC_FAN_SPEED" then some 30
      else if k = "A_CYC_RH_VALUE" then some 45
      else if k = "A_CYC_CO2_SENSOR_0" then some 900
      else if k = "A_CYC_TEMP_SUPPLY_AIR" then some 18
      else if k = "A_CYC_HOME_SPEED_SETTING" then some 40
      else if k = "A_CYC_AWAY_SPEED_SETTING" then some 20
      else if k = "A_CYC_BOOST_SPEED_SETTING" then some 60
      else none
    profile := 2
    PROFILES := sampleProfiles }

/-- A concrete service whose mode register carries the stopped sentinel 5
while the active profile still resolves to HOME and the fan-speed register
reads 50. -/
def stoppedService : ValloxService :=
  { registers := fun k =>
      if k = "A_CYC_MODE" then some 5
      else if k = "A_CYC_FAN_SPEED" then some 50
      else none
    profile := 2
    PROFILES := sampleProfiles }

/-- The mode-speed table of the C3 scenario: Away 20, Home 40, Boost 60. -/
def scenarioSpeeds : ModeSpeeds :=
  { HOME := some 40, AWAY := some 20, BOOST := some 60 }

/-- In the source, any nonzero speed lands in the `Low` branch whenever the
Away threshold is nonnegative: the comparison `!speed <= matterSpeeds.Low`
coerces the boolean `!speed` (false for nonzero speed) to the number 0. -/
theorem valloxSpeedToMatterMode_nonzero_low (s : Int) (t : ModeSpeeds)
    (hs : s ≠ 0) (hlow : 0 ≤ t.AWAY.getD 20) :
    valloxSpeedToMatterMode (some s) t = FanMode.Low := by
  have hb : (s == 0) = false := by simpa using hs
  simp [valloxSpeedToMatterMode, hb, jsNumOfBool, jsNotNum, hlow]

/-- Claim C2 (confirmed): the air-quality classification follows the exact
banding — absent or non-positive CO2 is Unknown, then half-open bands
(0,800), [800,1200), [1200,1800), [1800,2100), [2100,∞) map to Good, Moderate,
Poor, VeryPoor, ExtremelyPoor; boundary values belong to the higher-severity
band, in particular 2099 is VeryPoor and 2100 is ExtremelyPoor. -/
theorem classify_co2_banding (n : Int) :
    classify none = AirQualityEnum.Unknown ∧
    (n ≤ 0 → classify (some n) = AirQualityEnum.Unknown) ∧
    (0 < n → n < 800 → classify (some n) = AirQualityEnum.Good) ∧
    (800 ≤ n → n < 1200 → classify (some n) = AirQualityEnum.Moderate) ∧
    (1200 ≤ n → n < 1800 → classify (some n) = AirQualityEnum.Poor) ∧
    (1800 ≤ n → n < 2100 → classify (some n) = AirQualityEnum.VeryPoor) ∧
    (2100 ≤ n → classify (some n) = AirQualityEnum.ExtremelyPoor) ∧
    classify (some 2099) = AirQualityEnum.VeryPoor ∧
    classify (some 2100) = AirQualityEnum.ExtremelyPoor := by
  refine ⟨rfl, ?_, ?_, ?_, ?_, ?_, ?_, by decide, by decide⟩ <;>
    intros <;> simp only [classify] <;> split_ifs <;> first | rfl | omega

/-- Witness for C2: the banding theorem applied at one value per band. -/
theorem classify_co2_banding_witness :
    classify (some 500) = AirQualityEnum.Good ∧
    classify (some 800) = AirQualityEnum.Moderate ∧
    classify (some 1200) = AirQualityEnum.Poor ∧
    classify (some 1800) = AirQualityEnum.VeryPoor ∧
    classify (some 2100) = AirQualityEnum.ExtremelyPoor ∧
    classify (some 0) = AirQualityEnum.Unknown :=
  ⟨(classify_co2_banding 500).2.2.1 (by decide) (by decide),
   (classify_co2_banding 800).2.2.2.1 (by decide) (by decide),
   (classify_co2_banding 1200).2.2.2.2.1 (by decide) (by decide),
   (classify_co2_banding 1800).2.2.2.2.2.1 (by decide) (by decide),
   (classify_co2_banding 2100).2.2.2.2.2.2.1 (by decide),
   (classify_co2_banding 0).2.1 (by decide)⟩

/-- Claim C3 (code_bug): on the scenario table {Away 20, Home 40, Boost 60}
the source maps every nonzero speed to `Low` — 15, 40 and 41 alike — because
`!speed <= matterSpeeds.Low` compares the coerced boolean 0 against the Away
threshold and always holds; the claimed Medium (speed 40) and High (speed 41)
buckets are unreachable.  Speed 0 and an absent speed still map to `Off`. -/
theorem valloxSpeedToMatterMode_bucketing_bug :
    valloxSpeedToMatterMode (some 15) scenarioSpeeds = FanMode.Low ∧
    valloxSpeedToMatterMode (some 40) scenarioSpeeds = FanMode.Low ∧
    valloxSpeedToMatterMode (some 41) scenarioSpeeds = FanMode.Low ∧
    valloxSpeedToMatterMode (some 41) scenarioSpeeds ≠ FanMode.High ∧
    valloxSpeedToMatterMode (some 0) scenarioSpeeds = FanMode.Off ∧
    valloxSpeedToMatterMode none scenarioSpeeds = FanMode.Off := by
  decide

/-- The four optional sensor fields of a snapshot are direct pass-throughs of
the corresponding registers (all four keys are in the requested set). -/
theorem getStatusInfo_fields (svc : ValloxService) :
    (getStatusInfo svc).fanSpeed = svc.registers "A_CYC_FAN_SPEED" ∧
    (getStatusInfo svc).temperature = svc.registers "A_CYC_TEMP_SUPPLY_AIR" ∧
    (getStatusInfo svc).relativeHumidity = svc.registers "A_CYC_RH_VALUE" ∧
    (getStatusInfo svc).carbonDioxideConcentration = svc.registers "A_CYC_CO2_SENSOR_0" := by
  refine ⟨?_, ?_, ?_, ?_⟩ <;> simp [getStatusInfo, fetchMetrics]

/-- Claim C9 (confirmed): the status translation is a total function of the
raw payload — no payload makes it fail — and each of fanSpeed, temperature,
relativeHumidity and co2 is undefined in the snapshot exactly when its metric
key is absent from the payload. -/
theorem getStatusInfo_partial_payload (svc : ValloxService) :
    ((getStatusInfo svc).fanSpeed = none ↔ svc.registers "A_CYC_FAN_SPEED" = none) ∧
    ((getStatusInfo svc).temperature = none ↔ svc.registers "A_CYC_TEMP_SUPPLY_AIR" = none) ∧
    ((getStatusInfo svc).relativeHumidity = none ↔ svc.registers "A_CYC_RH_VALUE" = none) ∧
    ((getStatusInfo svc).carbonDioxideConcentration = none ↔
      svc.registers "A_CYC_CO2_SENSOR_0" = none) := by
  obtain ⟨h1, h2, h3, h4⟩ := getStatusInfo_fields svc
  rw [h1, h2, h3, h4]
  exact ⟨Iff.rfl, Iff.rfl, Iff.rfl, Iff.rfl⟩

/-- Claim C1 counterexample: with the mode register at the stopped sentinel 5,
the active profile resolving to HOME and the fan-speed register at 50, the
translator's snapshot has power false yet fanMode "HOME" (not "OFF") and
fanSpeed 50 (neither undefined nor zero). -/
theorem getStatusInfo_stopped_counterexample :
    (getStatusInfo stoppedService).power = false ∧
    (getStatusInfo stoppedService).fanMode = "HOME" ∧
    (getStatusInfo stoppedService).fanMode ≠ "OFF" ∧
    (getStatusInfo stoppedService).fanSpeed = some 50 ∧
    (getStatusInfo stoppedService).fanSpeed ≠ none ∧
    (getStatusInfo stoppedService).fanSpeed ≠ some 0 := by
  decide

/-- Claim C1 (corrected): when the mode register carries the stopped sentinel,
the translator's snapshot has power = false, but its fanMode and fanSpeed pass
through the resolved profile name and the fan-speed register unchanged; the
forcing to Off and 0 happens in the consumer `updateValues`, which for an
unpowered snapshot writes fanMode Off and percentSetting 0 regardless of the
other registers. -/
theorem updateValues_stopped_forces_off (svc : ValloxService)
    (h : svc.registers "A_CYC_MODE" = some 5) :
    (getStatusInfo svc).power = false ∧
    (updateValues svc (getStatusInfo svc)).fan.fanMode = FanMode.Off ∧
    (updateValues svc (getStatusInfo svc)).fan.percentSetting = 0 := by
  have hp : (getStatusInfo svc).power = false := by
    simp [getStatusInfo, fetchMetrics, h]
  refine ⟨hp, ?_, ?_⟩ <;> simp [updateValues, hp]

/-- Witness for C1's corrected statement at the stopped concrete service. -/
theorem updateValues_stopped_forces_off_witness :
    (getStatusInfo stoppedService).power = false ∧
    (updateValues stoppedService (getStatusInfo stoppedService)).fan.fanMode = FanMode.Off ∧
    (updateValues stoppedService (getStatusInfo stoppedService)).fan.percentSetting = 0 :=
  updateValues_stopped_forces_off stoppedService (by decide)

/-- Claim C4 (confirmed): changeFanMode for OFF issues exactly one raw write,
the stopped sentinel 5 to the mode register, with no profile write; for every
other mode it issues the running sentinel 0 to the mode register first and the
profile-register write second, in that order. -/
theorem changeFanMode_write_order (svc : ValloxService) (mode : String) :
    (mode = "OFF" →
      writesOf (changeFanMode svc mode) = [DeviceEvent.setValues [("A_CYC_MODE", 5)]]) ∧
    (mode ≠ "OFF" →
      writesOf (changeFanMode svc mode) =
        [DeviceEvent.setValues [("A_CYC_MODE", 0)],
         DeviceEvent.setProfile
           ((profileLookup svc.PROFILES mode).elim
             (ProfileArg.nameString "HOME") ProfileArg.rawValue)]) := by
  constructor
  · intro h
    subst h
    rfl
  · intro h
    have hb : (mode == "OFF") = false := by simpa using h
    simp [changeFanMode, writesOf, hb, DeviceEvent.isWrite]

/-- Witness for C4 at a concrete service, modes "OFF" and "HOME". -/
theorem changeFanMode_write_order_witness :
    writesOf (changeFanMode sampleService "OFF") = [DeviceEvent.setValues [("A_CYC_MODE", 5)]] ∧
    writesOf (changeFanMode sampleService "HOME") =
      [DeviceEvent.setValues [("A_CYC_MODE", 0)],
       DeviceEvent.setProfile (ProfileArg.rawValue 2)] := by
  refine ⟨(changeFanMode_write_order sampleService "OFF").1 rfl, ?_⟩
  have h := (changeFanMode_write_order sampleService "HOME").2 (by decide)
  rw [h]
  decide

/-- Claim C5 (confirmed): changeFanSpeed with speed 0 produces exactly the raw
writes of changeFanMode OFF; with a nonzero speed it writes that speed to both
fireplace override registers first and then performs the raw writes of
changeFanMode FIREPLACE. -/
theorem changeFanSpeed_write_delegation (svc : ValloxService) (speed : Int) :
    (speed = 0 →
      writesOf (changeFanSpeed svc speed) = writesOf (changeFanMode svc "OFF")) ∧
    (speed ≠ 0 →
      writesOf (changeFanSpeed svc speed) =
        DeviceEvent.setValues
            [("A_CYC_FIREPLACE_EXTR_FAN", speed), ("A_CYC_FIREPLACE_SUPP_FAN", speed)]
          :: writesOf (changeFanMode svc "FIREPLACE")) := by
  constructor
  · intro h
    subst h
    simp [changeFanSpeed, writesOf, DeviceEvent.isWrite]
  · intro h
    have hb : (speed == 0) = false := by simpa using h
    simp [changeFanSpeed, writesOf, hb, DeviceEvent.isWrite]

/-- Witness for C5 at a concrete service, speeds 0 and 25. -/
theorem changeFanSpeed_write_delegation_witness :
    writesOf (changeFanSpeed sampleService 0) = writesOf (changeFanMode sampleService "OFF") ∧
    writesOf (changeFanSpeed sampleService 25) =
      DeviceEvent.setValues
          [("A_CYC_FIREPLACE_EXTR_FAN", 25), ("A_CYC_FIREPLACE_SUPP_FAN", 25)]
        :: writesOf (changeFanMode sampleService "FIREPLACE") :=
  ⟨(changeFanSpeed_write_delegation sampleService 0).1 rfl,
   (changeFanSpeed_write_delegation sampleService 25).2 (by decide)⟩

/-- Claim C6 counterexample: with HOME ↦ 2 in the table, changeFanMode on the
unknown mode "unknown-name" writes setProfile with the plain name string
"HOME", which is not the raw enum value 2 recorded for Home. -/
theorem changeFanMode_unknown_counterexample :
    writesOf (changeFanMode sampleService "unknown-name") =
      [DeviceEvent.setValues [("A_CYC_MODE", 0)],
       DeviceEvent.setProfile (ProfileArg.nameString "HOME")] ∧
    profileLookup sampleService.PROFILES "HOME" = some 2 ∧
    ProfileArg.nameString "HOME" ≠ ProfileArg.rawValue 2 := by
  decide

/-- Claim C6 (corrected): for a mode name with no PROFILES entry the
`?? 'HOME'` fallback passes the literal profile-name string "HOME" to
setProfile — the profile write carries the name string, not the table's raw
enum value for Home. -/
theorem changeFanMode_unknown_defaults_to_name (svc : ValloxService) (mode : String)
    (hmode : mode ≠ "OFF") (h : profileLookup svc.PROFILES mode = none) :
    writesOf (changeFanMode svc mode) =
      [DeviceEvent.setValues [("A_CYC_MODE", 0)],
       DeviceEvent.setProfile (ProfileArg.nameString "HOME")] := by
  have hb : (mode == "OFF") = false := by simpa using hmode
  simp [changeFanMode, writesOf, hb, h, DeviceEvent.isWrite]

/-- Witness for C6's corrected statement at the concrete table. -/
theorem changeFanMode_unknown_defaults_to_name_witness :
    writesOf (changeFanMode sampleService "unknown-name") =
      [DeviceEvent.setValues [("A_CYC_MODE", 0)],
       DeviceEvent.setProfile (ProfileArg.nameString "HOME")] :=
  changeFanMode_unknown_defaults_to_name sampleService "unknown-name" (by decide) (by decide)

/-- Claim C7 counterexample: two consecutive startPolling calls from the
initial state leave two armed timers (ids 0 and 1), not one — startPolling has
no already-running guard and the first handle is silently overwritten. -/
theorem startPolling_twice_counterexample :
    ((startPolling sampleService (startPolling sampleService PollState.initial).1).1).activeTimers
        = [0, 1] ∧
    ((startPolling sampleService
        (startPolling sampleService PollState.initial).1).1).activeTimers.length ≠ 1 := by
  decide

/-- Claim C7 (corrected): stopPolling on an already-stopped instance is a
no-op (and cannot throw), but startPolling is not idempotent: each call arms a
fresh recurring timer and overwrites the stored handle, so two consecutive
starts leave two active timers with the handle pointing at the newer one. -/
theorem polling_start_stop (svc : ValloxService) (s : PollState) :
    ((startPolling svc (startPolling svc s).1).1).activeTimers.length
        = s.activeTimers.length + 2 ∧
    ((startPolling svc (startPolling svc s).1).1).timer = some (s.nextId + 1) ∧
    (s.timer = none → stopPolling s = s) := by
  refine ⟨?_, ?_, ?_⟩
  · simp [startPolling]
  · simp [startPolling]
  · intro h
    unfold stopPolling
    rw [h]

/-- Witness for C7's corrected statement from the initial state. -/
theorem polling_start_stop_witness :
    ((startPolling sampleService (startPolling sampleService PollState.initial).1).1).activeTimers.length
        = PollState.initial.activeTimers.length + 2 ∧
    ((startPolling sampleService (startPolling sampleService PollState.initial).1).1).timer
        = some (PollState.initial.nextId + 1) ∧
    stopPolling PollState.initial = PollState.initial :=
  ⟨(polling_start_stop sampleService PollState.initial).1,
   (polling_start_stop sampleService PollState.initial).2.1,
   (polling_start_stop sampleService PollState.initial).2.2 rfl⟩

/-- Claim C8 (confirmed): over a PROFILES table with unique names, a raw
profile value present in the table round-trips — the inverted-table resolution
yields a mode name whose PROFILES lookup returns the very same raw value —
while a raw value with no table entry resolves to "OFF". -/
theorem profile_mode_round_trip (tbl : List (String × Int)) (v : Int)
    (hnodup : (tbl.map Prod.fst).Nodup) :
    ((∃ e ∈ tbl, e.2 = v) →
      profileLookup tbl ((invertedProfileLookup tbl v).getD "OFF") = some v) ∧
    ((∀ e ∈ tbl, e.2 ≠ v) → (invertedProfileLookup tbl v).getD "OFF" = "OFF") := by
  constructor
  · rintro ⟨e, he, hev⟩
    have hsome : (tbl.reverse.find? (fun x => x.2 == v)).isSome := by
      rw [List.find?_isSome]
      exact ⟨e, by simpa using he, by simp [hev]⟩
    obtain ⟨a, ha⟩ := Option.isSome_iff_exists.mp hsome
    have hamem : a ∈ tbl := by
      have h1 := List.mem_of_find?_eq_some ha
      simpa using h1
    have hav : a.2 = v := by
      have h2 := List.find?_some ha
      simpa using h2
    have hinv : invertedProfileLookup tbl v = some a.1 := by
      simp [invertedProfileLookup, ha]
    rw [hinv, Option.getD_some]
    have hsome2 : (tbl.find? (fun x => x.1 == a.1)).isSome := by
      rw [List.find?_isSome]
      exact ⟨a, hamem, by simp⟩
    obtain ⟨b, hb⟩ := Option.isSome_iff_exists.mp hsome2
    have hbmem : b ∈ tbl := List.mem_of_find?_eq_some hb
    have hba : b.1 = a.1 := by
      have h3 := List.find?_some hb
      simpa using h3
    have hab : b = a := List.inj_on_of_nodup_map hnodup hbmem hamem hba
    simp [profileLookup, hb, hab, hav]
  · intro habs
    have hnone : tbl.reverse.find? (fun x => x.2 == v) = none := by
      rw [List.find?_eq_none]
      intro x hx
      have hxv : x.2 ≠ v := habs x (by simpa using hx)
      simp [hxv]
    simp [invertedProfileLookup, hnone]

/-- Witness for C8 at the concrete table: raw value 4 (FIREPLACE) round-trips
and the absent raw value 99 resolves to "OFF". -/
theorem profile_mode_round_trip_witness :
    profileLookup sampleProfiles ((invertedProfileLookup sampleProfiles 4).getD "OFF") = some 4 ∧
    (invertedProfileLookup sampleProfiles 99).getD "OFF" = "OFF" :=
  ⟨(profile_mode_round_trip sampleProfiles 4 (by decide)).1 (by decide),
   (profile_mode_round_trip sampleProfiles 99 (by decide)).2 (by decide)⟩

/-- Claim C10 (confirmed): every changeFanSpeed call performs only raw writes
and then exactly two fetch-then-callback pairs — one delivered by the nested
changeFanMode (OFF for speed 0, FIREPLACE otherwise), one delivered by
changeFanSpeed itself after the nested call returns — so the subscriber
callback runs exactly twice, each time with a freshly fetched snapshot. -/
theorem changeFanSpeed_callback_twice (svc : ValloxService) (speed : Int) :
    ∃ ws : List DeviceEvent,
      (∀ e ∈ ws, e.isWrite = true) ∧
      changeFanSpeed svc speed =
        ws ++ [DeviceEvent.fetchStatus, DeviceEvent.callback (getStatusInfo svc),
               DeviceEvent.fetchStatus, DeviceEvent.callback (getStatusInfo svc)] ∧
      ((changeFanSpeed svc speed).filter DeviceEvent.isCallback).length = 2 := by
  by_cases h : speed = 0
  · subst h
    refine ⟨[DeviceEvent.setValues [("A_CYC_MODE", 5)]], ?_, ?_, ?_⟩
    · intro e he
      simp at he
      subst he
      rfl
    · simp [changeFanSpeed, changeFanMode]
    · simp [changeFanSpeed, changeFanMode, DeviceEvent.isCallback]
  · have hb : (speed == 0) = false := by simpa using h
    have hf : ("FIREPLACE" == "OFF") = false := by decide
    refine ⟨[DeviceEvent.setValues
               [("A_CYC_FIREPLACE_EXTR_FAN", speed), ("A_CYC_FIREPLACE_SUPP_FAN", speed)],
             DeviceEvent.setValues [("A_CYC_MODE", 0)],
             DeviceEvent.setProfile
               ((profileLookup svc.PROFILES "FIREPLACE").elim
                 (ProfileArg.nameString "HOME") ProfileArg.rawValue)], ?_, ?_, ?_⟩
    · intro e he
      simp at he
      rcases he with he | he | he <;> subst he <;> rfl
    · simp [changeFanSpeed, changeFanMode, hb, hf]
    · simp [changeFanSpeed, changeFanMode, hb, hf, DeviceEvent.isCallback]

/-- Witness for C9: the pass-through equivalences evaluated at the concrete
stopped service (whose payload omits temperature, humidity and CO2). -/
theorem getStatusInfo_partial_payload_witness :
    ((getStatusInfo stoppedService).fanSpeed = none ↔
      stoppedService.registers "A_CYC_FAN_SPEED" = none) ∧
    ((getStatusInfo stoppedService).temperature = none ↔
      stoppedService.registers "A_CYC_TEMP_SUPPLY_AIR" = none) ∧
    ((getStatusInfo stoppedService).relativeHumidity = none ↔
      stoppedService.registers "A_CYC_RH_VALUE" = none) ∧
    ((getStatusInfo stoppedService).carbonDioxideConcentration = none ↔
      stoppedService.registers "A_CYC_CO2_SENSOR_0" = none) :=
  getStatusInfo_partial_payload stoppedService

/-- Witness for C10: the two-callback trace shape at a concrete service and
speed 25. -/
theorem changeFanSpeed_callback_twice_witness :
    ∃ ws : List DeviceEvent,
      (∀ e ∈ ws, e.isWrite = true) ∧
      changeFanSpeed sampleService 25 =
        ws ++ [DeviceEvent.fetchStatus, DeviceEvent.callback (getStatusInfo sampleService),
               DeviceEvent.fetchStatus, DeviceEvent.callback (getStatusInfo sampleService)] ∧
      ((changeFanSpeed sampleService 25).filter DeviceEvent.isCallback).length = 2 :=
  changeFanSpeed_callback_twice sampleService 25

end ValloxBridge
